import Mathlib

/-!
Shallow embedding of the COCO captioning data pipeline in `SGT/data.py`:
the `Data` and `Data_test` dataset classes, the `MyPreProcessing` step, and
the `Dataloader` class (`_transform`, `_collate_fn`, `get_dataloader`).

External boundaries (the file system, `cv2.imread`, the HuggingFace
tokenizer, the process-global random source) are injected as function
parameters; everything written in `data.py` itself is translated statement
by statement.
-/

/-- The Python error classes raised (directly or by library calls) in the
translated code paths of `data.py`. -/
inductive PyError where
  | indexError : PyError
  | keyError : PyError
  | fileNotFoundError : String → PyError
  | valueError : String → PyError
  deriving Repr, DecidableEq

instance {ε α : Type} [DecidableEq ε] [DecidableEq α] : DecidableEq (Except ε α) := fun a b =>
  match a, b with
  | Except.ok x, Except.ok y =>
      if h : x = y then Decidable.isTrue (by rw [h]) else Decidable.isFalse (by simp [h])
  | Except.error x, Except.error y =>
      if h : x = y then Decidable.isTrue (by rw [h]) else Decidable.isFalse (by simp [h])
  | Except.ok _, Except.error _ => Decidable.isFalse (by simp)
  | Except.error _, Except.ok _ => Decidable.isFalse (by simp)

/-- Split a character list at every occurrence of the separator `c`
(the semantics of Python `s.split(c)` for a single-character separator). -/
def splitOnChar (c : Char) : List Char → List (List Char)
  | [] => [[]]
  | x :: xs =>
    let r := splitOnChar c xs
    if x == c then [] :: r
    else match r with
      | [] => [[x]]
      | y :: ys => (x :: y) :: ys

/-- The whitespace characters stripped by Python `str.strip()`. -/
def pyIsSpace (c : Char) : Bool :=
  c == ' ' || c == '\t' || c == '\n' || c == '\r' || c == '\x0b' || c == '\x0c'

/-- Python `s.strip()`: remove leading and trailing whitespace. -/
def stripChars (s : List Char) : List Char :=
  ((s.dropWhile pyIsSpace).reverse.dropWhile pyIsSpace).reverse

/-- Python `s.strip()` on a string value. -/
def pyStrip (s : String) : String := String.mk (stripChars s.data)

/-- Accumulate a decimal digit string; `none` when a non-digit appears or the
string held no digit at all. -/
def parseDigits : List Char → Option Nat → Option Nat
  | [], acc => acc
  | c :: cs, acc =>
    if c.isDigit then parseDigits cs (some ((acc.getD 0) * 10 + (c.toNat - '0'.toNat)))
    else none

/-- Python `int(s)` semantics on the character list: surrounding whitespace
ignored, an optional sign, then decimal digits. -/
def pyIntChars (s : List Char) : Option Int :=
  match stripChars s with
  | '-' :: rest => (parseDigits rest none).map (fun n => -(n : Int))
  | '+' :: rest => (parseDigits rest none).map (fun n => (n : Int))
  | rest => (parseDigits rest none).map (fun n => (n : Int))

/-- Python list indexing `xs[i]`: negative indices count from the end,
out-of-range indices raise `IndexError`. -/
def pyIndex {α : Type} (xs : List α) (i : Int) : Except PyError α :=
  let j : Int := if i < 0 then i + xs.length else i
  if h : 0 ≤ j ∧ j.toNat < xs.length then Except.ok (xs.get ⟨j.toNat, h.2⟩)
  else Except.error PyError.indexError

/-- Python `int(s)` on a string: surrounding whitespace is ignored, a
non-numeric literal raises `ValueError`. -/
def pyInt (s : String) : Except PyError Int :=
  match pyIntChars s.data with
  | some n => Except.ok n
  | none => Except.error (PyError.valueError ("invalid literal for int: " ++ s))

/-- `os.path.basename`: the part of the path after the last slash. -/
def basename (p : String) : String := String.mk ((splitOnChar '/' p.data).getLastD p.data)

/-- `s.split('.')[0]`: the part of the string before the first dot. -/
def firstDot (s : String) : String := String.mk ((splitOnChar '.' s.data).headD s.data)

/-- `random.randint(a, b)`: raises `ValueError` when the range is empty
(`b < a`), otherwise returns a value in `[a, b]` drawn from the injected
entropy source `pick`. -/
def randint (pick : Nat → Nat) (a b : Int) : Except PyError Int :=
  if b < a then Except.error (PyError.valueError "empty range for randrange()")
  else Except.ok (a + ((pick (b - a).toNat % ((b - a).toNat + 1) : Nat) : Int))

/-- One record of the caption JSON file:
`{"image_id": number, "captions": [string, ...]}`. -/
structure CaptionRecord where
  image_id : Int
  captions : List String
  deriving Repr, DecidableEq

/-- The state of a `Data` instance after `__init__`; `Image` abstracts the
decoded pixel array produced by `cv2.imread`. -/
structure DataState (Image : Type) where
  image_dir : String
  image_paths : List String
  caption_file_train : String
  caption_file_val : String
  transform : Option (Image → Image)
  tokenizer : String → List Int
  captions : List CaptionRecord

/-- `Data.__init__`: globs the split's `*.jpg` files, picks the train or val
caption JSON by split name, and loads it; a missing file (`readJson` returns
`none`, i.e. `FileNotFoundError`) is caught, a message is printed and the
caption set falls back to empty.  Returns the constructed state and the list
of printed messages. -/
def dataInit {Image : Type} (image_dir image_split caption_split : String)
    (glob : String → List String) (readJson : String → Option (List CaptionRecord))
    (tokenizer : String → List Int) (transform : Option (Image → Image)) :
    DataState Image × List String :=
  let image_paths := glob (image_dir ++ "/" ++ image_split ++ "/*.jpg")
  let fileTrain := image_dir ++ "/" ++ caption_split ++ "/train_captions.json"
  let fileVal := image_dir ++ "/" ++ caption_split ++ "/val_captions.json"
  let chosen := if image_split == "train2017" then fileTrain else fileVal
  match readJson chosen with
  | some recs =>
      ({ image_dir := image_dir, image_paths := image_paths,
         caption_file_train := fileTrain, caption_file_val := fileVal,
         transform := transform, tokenizer := tokenizer, captions := recs }, [])
  | none =>
      ({ image_dir := image_dir, image_paths := image_paths,
         caption_file_train := fileTrain, caption_file_val := fileVal,
         transform := transform, tokenizer := tokenizer, captions := [] },
       ["Caption file for " ++ image_split ++ " not found."])

/-- `Data.__len__`: the number of discovered image paths. -/
def dataLen {Image : Type} (st : DataState Image) : Nat := st.image_paths.length

/-- The list comprehension
`[anno['captions'] for anno in self._captions if str(int(anno['image_id'])) == image_id]`. -/
def matchingCaptions (recs : List CaptionRecord) (image_id : String) : List (List String) :=
  (recs.filter (fun anno => toString anno.image_id == image_id)).map (fun anno => anno.captions)

/-- The loop `captions = []; for cap in image_captions: captions = cap`:
the last matching record's caption list, or `[]` when nothing matched. -/
def resolveCaptions (recs : List CaptionRecord) (image_id : String) : List String :=
  (matchingCaptions recs image_id).foldl (fun _ cap => cap) []

/-- The body of `Data.__getitem__` (printed messages, then the returned pair
or the raised error): index into the path list, decode the image (raising
`FileNotFoundError` when `cv2.imread` returns `None`), normalize the
filename stem and the record ids through `str(int(...))`, scan the caption
records, print a warning when nothing matched, keep the last matching
record's captions, draw a random index with `random.randint`, index into the
caption list, tokenize the stripped caption, and apply the transform when
one is configured. -/
def dataGetitemOut {Image : Type} (imread : String → Option Image) (pick : Nat → Nat)
    (st : DataState Image) (idx : Nat) : List String × Except PyError (Image × List Int) :=
  match pyIndex st.image_paths (Int.ofNat idx) with
  | Except.error e => ([], Except.error e)
  | Except.ok image_path =>
    match imread image_path with
    | none => ([], Except.error (PyError.fileNotFoundError ("Image not found at " ++ image_path)))
    | some image =>
      match pyInt (firstDot (basename image_path)) with
      | Except.error e => ([], Except.error e)
      | Except.ok idNum =>
        let image_id := toString idNum
        let image_captions := matchingCaptions st.captions image_id
        let log := if image_captions.isEmpty then
            ["No captions found for image ID " ++ image_id ++ ". Returning an empty caption."]
          else []
        let captions := resolveCaptions st.captions image_id
        match randint pick 0 ((captions.length : Int) - 1) with
        | Except.error e => (log, Except.error e)
        | Except.ok result =>
          match pyIndex captions result with
          | Except.error e => (log, Except.error e)
          | Except.ok chosen =>
            let caption_ids := st.tokenizer (pyStrip chosen)
            let image2 := match st.transform with
              | some t => t image
              | none => image
            (log, Except.ok (image2, caption_ids))

/-- `Data.__getitem__` as a state-passing function.  The method body contains
no assignment to `self`, so the translated post-state is the input state,
paired with the printed messages and the result. -/
def dataGetitem {Image : Type} (imread : String → Option Image) (pick : Nat → Nat)
    (st : DataState Image) (idx : Nat) :
    DataState Image × List String × Except PyError (Image × List Int) :=
  (st, dataGetitemOut imread pick st idx)

/-- The state of a `Data_test` instance after `__init__`. -/
structure DataTestState (Image : Type) where
  image_dir : String
  image_paths : List String
  transform : Option (Image → Image)

/-- `Data_test.__init__`: globs the split's `*.jpg` files; no caption
handling. -/
def dataTestInit {Image : Type} (image_dir image_split : String)
    (glob : String → List String) (transform : Option (Image → Image)) :
    DataTestState Image :=
  { image_dir := image_dir,
    image_paths := glob (image_dir ++ "/" ++ image_split ++ "/*.jpg"),
    transform := transform }

/-- `Data_test.__getitem__` as a state-passing function (the body contains no
assignment to `self`): resolve the path, decode, transform, return the image
only. -/
def dataTestGetitem {Image : Type} (imread : String → Option Image)
    (st : DataTestState Image) (idx : Nat) : DataTestState Image × Except PyError Image :=
  (st,
    match pyIndex st.image_paths (Int.ofNat idx) with
    | Except.error e => Except.error e
    | Except.ok image_path =>
      match imread image_path with
      | none => Except.error (PyError.fileNotFoundError ("Image not found at " ++ image_path))
      | some image =>
        Except.ok (match st.transform with
          | some t => t image
          | none => image))

/-- One operation of the albumentations `A.Compose` pipeline built by
`Dataloader._transform`; probabilities are the exact rational constants of
the source. -/
inductive AugOp where
  | resize (height width : Nat) : AugOp
  | randomBrightnessContrast (p : ℚ) : AugOp
  | hueSaturationValue (p : ℚ) : AugOp
  | horizontalFlip (p : ℚ) : AugOp
  | verticalFlip (p : ℚ) : AugOp
  | myPreProcessing : AugOp
  | toTensorV2 : AugOp
  deriving Repr, DecidableEq

/-- The `Dataloader._prob_aug` dictionary. -/
def prob_aug : List (String × ℚ) :=
  [("train2017", 1/2), ("val2017", 0), ("test2017", 0)]

/-- Python dictionary lookup `d[k]`: raises `KeyError` when the key is
absent. -/
def dictLookup {α : Type} (d : List (String × α)) (k : String) : Except PyError α :=
  match d.find? (fun kv => kv.1 == k) with
  | some kv => Except.ok kv.2
  | none => Except.error PyError.keyError

/-- `Dataloader._transform`: looks the split up in `_prob_aug` and builds the
`A.Compose` pipeline: a fixed resize to size×size, the four probabilistic
augmentations at probability `p`, the `MyPreProcessing` normalization and
the `ToTensorV2` channel-first conversion. -/
def dataloaderTransform (size : Nat) (image_split : String) : Except PyError (List AugOp) :=
  match dictLookup prob_aug image_split with
  | Except.error e => Except.error e
  | Except.ok p =>
      Except.ok [AugOp.resize size size,
                 AugOp.randomBrightnessContrast p,
                 AugOp.hueSaturationValue p,
                 AugOp.horizontalFlip p,
                 AugOp.verticalFlip p,
                 AugOp.myPreProcessing,
                 AugOp.toTensorV2]

/-- `MyPreProcessing.__call__` on one pixel channel value: `image/255.`
cast to float (exact rational arithmetic in the model). -/
def myPreProcessingPixel (v : ℚ) : ℚ := v / 255

/-- The maximum sequence length `torch.nn.utils.rnn.pad_sequence` pads to:
the longest sequence in the batch (0 for an empty batch). -/
def padSeqMax (seqs : List (List Int)) : Nat :=
  seqs.foldl (fun m s => max m s.length) 0

/-- `pad_sequence(captions, batch_first=True, padding_value=pv)`: every
sequence is right-padded with `pv` to the length of the longest sequence in
the batch. -/
def padSequence (seqs : List (List Int)) (pv : Int) : List (List Int) :=
  seqs.map (fun s => s ++ List.replicate (padSeqMax seqs - s.length) pv)

/-- `Dataloader._collate_fn`: unzips the batch (`zip(*batch)` raises
`ValueError` on an empty batch), stacks the images (modelled as the list of
images, whose leading shape component is its length) and pads the caption
sequences with padding value 0. -/
def collateFn {Image : Type} (batch : List (Image × List Int)) :
    Except PyError (List Image × List (List Int)) :=
  if batch.isEmpty then Except.error (PyError.valueError "not enough values to unpack")
  else Except.ok (batch.map Prod.fst, padSequence (batch.map Prod.snd) 0)

/-- A map-style torch dataset: a length and an index → sample mapping. -/
structure PyDataset (α : Type) where
  size : Nat
  getitem : Nat → α

/-- `torch.utils.data.Subset(dataset, indices)`: length is the number of
indices, and sample `i` is the base dataset's sample at `indices[i]` (the
claims only concern `i` below the length, where `getD` agrees with Python
indexing). -/
def pySubset {α : Type} (d : PyDataset α) (indices : List Nat) : PyDataset α :=
  { size := indices.length, getitem := fun i => d.getitem (indices.getD i 0) }

/-- The subset step of `Dataloader.get_dataloader`:
`if self._subset: dataset = Subset(dataset, range(self._subset))` — a
nonzero `_subset` is truthy and wraps the dataset, zero leaves it alone. -/
def appliedSubset {α : Type} (subset : Nat) (d : PyDataset α) : PyDataset α :=
  if subset ≠ 0 then pySubset d (List.range subset) else d

/-- The `Data` provider as a torch dataset: length is `Data.__len__`, sample
access is `Data.__getitem__`. -/
def dataDataset {Image : Type} (imread : String → Option Image) (pick : Nat → Nat)
    (st : DataState Image) :
    PyDataset (DataState Image × List String × Except PyError (Image × List Int)) :=
  { size := dataLen st, getitem := fun idx => dataGetitem imread pick st idx }

/-- The `Data_test` provider as a torch dataset. -/
def dataTestDataset {Image : Type} (imread : String → Option Image)
    (st : DataTestState Image) : PyDataset (DataTestState Image × Except PyError Image) :=
  { size := st.image_paths.length, getitem := fun idx => dataTestGetitem imread st idx }

/-- The dataset wrapped by `Dataloader.get_dataloader` on the captioned
branch (every split except `test2017`): the `Data` provider, subset-wrapped
when `_subset` is nonzero. -/
def getDataloaderCaptionedDataset {Image : Type} (subset : Nat)
    (imread : String → Option Image) (pick : Nat → Nat) (st : DataState Image) :
    PyDataset (DataState Image × List String × Except PyError (Image × List Int)) :=
  appliedSubset subset (dataDataset imread pick st)

/-- The dataset wrapped by `Dataloader.get_dataloader` on the `test2017`
branch: the `Data_test` provider, subset-wrapped when `_subset` is
nonzero. -/
def getDataloaderTestDataset {Image : Type} (subset : Nat)
    (imread : String → Option Image) (st : DataTestState Image) :
    PyDataset (DataTestState Image × Except PyError Image) :=
  appliedSubset subset (dataTestDataset imread st)

theorem foldl_keep_last {α : Type} (l : List α) (a : α) :
    l.foldl (fun _ c => c) a = l.getLastD a := by
  induction l generalizing a with
  | nil => rfl
  | cons x xs ih => rw [List.foldl_cons, ih, List.getLastD_cons]

/-- C3: for every caption set containing two or more records whose
`image_id` equals the accessed image's integer id, the caption list resolved
by `get(index)` (the `captions` variable the random selection then draws
from) is exactly the caption list of the last matching record in file
order. -/
theorem c3_last_matching_record_wins (recs : List CaptionRecord) (image_id : String)
    (r : CaptionRecord)
    (hdup : 2 ≤ (recs.filter (fun anno => toString anno.image_id == image_id)).length)
    (hlast : (recs.filter (fun anno => toString anno.image_id == image_id)).getLast? = some r) :
    resolveCaptions recs image_id = r.captions := by
  unfold resolveCaptions matchingCaptions
  rw [foldl_keep_last, List.getLastD_eq_getLast?, List.getLast?_map, hlast]
  rfl

def c3recs : List CaptionRecord :=
  [⟨5, ["first"]⟩, ⟨5, ["second a", "second b"]⟩, ⟨6, ["other"]⟩]

theorem c3_witness :
    2 ≤ (c3recs.filter (fun anno => toString anno.image_id == "5")).length ∧
    (c3recs.filter (fun anno => toString anno.image_id == "5")).getLast? =
      some ⟨5, ["second a", "second b"]⟩ ∧
    resolveCaptions c3recs "5" = ["second a", "second b"] :=
  ⟨by decide, by decide,
   c3_last_matching_record_wins c3recs "5" ⟨5, ["second a", "second b"]⟩ (by decide) (by decide)⟩

/-- C9: `Data.__getitem__` leaves the provider state unchanged for every
index: the whole state, and in particular the loaded caption set, the
discovered image-path list and the transform, are identical before and
after the call. -/
theorem c9_getitem_preserves_state {Image : Type} (imread : String → Option Image)
    (pick : Nat → Nat) (st : DataState Image) (idx : Nat) :
    (dataGetitem imread pick st idx).1 = st ∧
    (dataGetitem imread pick st idx).1.captions = st.captions ∧
    (dataGetitem imread pick st idx).1.image_paths = st.image_paths ∧
    (dataGetitem imread pick st idx).1.transform = st.transform :=
  ⟨rfl, rfl, rfl, rfl⟩

/-- C8: for each of the three split names, `Dataloader._transform` builds the
same pipeline — a fixed resize to size×size, then brightness/contrast,
hue/saturation and the two flips at the per-split probability (1/2 for
`train2017`, 0 for `val2017` and `test2017`), then the `MyPreProcessing`
division by 255 and the `ToTensorV2` channel-first conversion — so the
normalization and layout steps are identical across splits. -/
theorem c8_transform_config (size : Nat) :
    dataloaderTransform size "train2017" = Except.ok
        [AugOp.resize size size, AugOp.randomBrightnessContrast (1/2),
         AugOp.hueSaturationValue (1/2), AugOp.horizontalFlip (1/2),
         AugOp.verticalFlip (1/2), AugOp.myPreProcessing, AugOp.toTensorV2] ∧
    dataloaderTransform size "val2017" = Except.ok
        [AugOp.resize size size, AugOp.randomBrightnessContrast 0,
         AugOp.hueSaturationValue 0, AugOp.horizontalFlip 0,
         AugOp.verticalFlip 0, AugOp.myPreProcessing, AugOp.toTensorV2] ∧
    dataloaderTransform size "test2017" = Except.ok
        [AugOp.resize size size, AugOp.randomBrightnessContrast 0,
         AugOp.hueSaturationValue 0, AugOp.horizontalFlip 0,
         AugOp.verticalFlip 0, AugOp.myPreProcessing, AugOp.toTensorV2] ∧
    myPreProcessingPixel = fun v => v / 255 :=
  ⟨rfl, rfl, rfl, rfl⟩

/-- C10: with the constructor's default subset size 0, `get_dataloader`
applies no subset restriction: on the captioned branch and on the test
branch alike the wrapped dataset is the full provider, whose length is the
number of discovered image paths. -/
theorem c10_zero_subset_is_full_provider {Image : Type} (imread : String → Option Image)
    (pick : Nat → Nat) (st : DataState Image) (stTest : DataTestState Image) :
    getDataloaderCaptionedDataset 0 imread pick st = dataDataset imread pick st ∧
    (getDataloaderCaptionedDataset 0 imread pick st).size = st.image_paths.length ∧
    getDataloaderTestDataset 0 imread stTest = dataTestDataset imread stTest ∧
    (getDataloaderTestDataset 0 imread stTest).size = stTest.image_paths.length := by
  refine ⟨?_, ?_, ?_, ?_⟩ <;>
    simp [getDataloaderCaptionedDataset, getDataloaderTestDataset, appliedSubset,
      dataDataset, dataTestDataset, dataLen]

/-- C7: for every subset size N ≥ 1, the dataset wrapped by
`get_dataloader` (captioned branch and test branch alike) has length
exactly N, and its sample at every index i < N is the unrestricted
provider's sample at i — a fixed-order prefix. -/
theorem c7_subset_is_fixed_prefix {Image : Type} (N : Nat) (hN : 1 ≤ N)
    (imread : String → Option Image) (pick : Nat → Nat)
    (st : DataState Image) (stTest : DataTestState Image) :
    (getDataloaderCaptionedDataset N imread pick st).size = N ∧
    (∀ i, i < N → (getDataloaderCaptionedDataset N imread pick st).getitem i =
        (dataDataset imread pick st).getitem i) ∧
    (getDataloaderTestDataset N imread stTest).size = N ∧
    (∀ i, i < N → (getDataloaderTestDataset N imread stTest).getitem i =
        (dataTestDataset imread stTest).getitem i) := by
  have hN0 : N ≠ 0 := by omega
  refine ⟨?_, ?_, ?_, ?_⟩ <;>
    simp [getDataloaderCaptionedDataset, getDataloaderTestDataset, appliedSubset, hN0,
      pySubset] <;>
    intro i hi <;>
    simp [List.getD_eq_getElem?_getD, List.getElem?_range, hi]

def c7st : DataState Nat :=
  { image_dir := "d", image_paths := ["d/train2017/1.jpg", "d/train2017/2.jpg", "d/train2017/3.jpg"],
    caption_file_train := "d/captions/train_captions.json",
    caption_file_val := "d/captions/val_captions.json",
    transform := none, tokenizer := fun _ => [], captions := [] }

def c7stTest : DataTestState Nat :=
  { image_dir := "d", image_paths := ["d/test2017/9.jpg"], transform := none }

def c7imread : String → Option Nat := fun _ => some 0

def c7pick : Nat → Nat := fun _ => 0

theorem c7_witness :
    1 ≤ 2 ∧
    ((getDataloaderCaptionedDataset 2 c7imread c7pick c7st).size = 2 ∧
     (∀ i, i < 2 → (getDataloaderCaptionedDataset 2 c7imread c7pick c7st).getitem i =
         (dataDataset c7imread c7pick c7st).getitem i) ∧
     (getDataloaderTestDataset 2 c7imread c7stTest).size = 2 ∧
     (∀ i, i < 2 → (getDataloaderTestDataset 2 c7imread c7stTest).getitem i =
         (dataTestDataset c7imread c7stTest).getitem i)) :=
  ⟨by decide, c7_subset_is_fixed_prefix 2 (by decide) c7imread c7pick c7st c7stTest⟩

theorem foldl_maxLen_init_le (seqs : List (List Int)) (a : Nat) :
    a ≤ seqs.foldl (fun m s => max m s.length) a := by
  induction seqs generalizing a with
  | nil => simp
  | cons x xs ih =>
    rw [List.foldl_cons]
    exact le_trans (le_max_left a x.length) (ih _)

theorem mem_len_le_foldl_maxLen (seqs : List (List Int)) (a : Nat) (s : List Int)
    (hs : s ∈ seqs) : s.length ≤ seqs.foldl (fun m t => max m t.length) a := by
  induction seqs generalizing a with
  | nil => cases hs
  | cons x xs ih =>
    rw [List.foldl_cons]
    rcases List.mem_cons.mp hs with h | h
    · subst h
      exact le_trans (le_max_right a s.length) (foldl_maxLen_init_le xs _)
    · exact ih _ h

theorem foldl_maxLen_attained (seqs : List (List Int)) (a : Nat) :
    seqs.foldl (fun m t => max m t.length) a = a ∨
      ∃ s ∈ seqs, seqs.foldl (fun m t => max m t.length) a = s.length := by
  induction seqs generalizing a with
  | nil => exact Or.inl rfl
  | cons x xs ih =>
    rw [List.foldl_cons]
    rcases ih (max a x.length) with h | ⟨s, hs, h⟩
    · rcases max_choice a x.length with hm | hm
      · exact Or.inl (by rw [h, hm])
      · exact Or.inr ⟨x, List.mem_cons_self x xs, by rw [h, hm]⟩
    · exact Or.inr ⟨s, List.mem_cons_of_mem _ hs, h⟩

theorem padSeqMax_mem_le (seqs : List (List Int)) (s : List Int) (hs : s ∈ seqs) :
    s.length ≤ padSeqMax seqs := mem_len_le_foldl_maxLen seqs 0 s hs

theorem padSeqMax_attained (seqs : List (List Int)) (hne : seqs ≠ []) :
    ∃ s ∈ seqs, padSeqMax seqs = s.length := by
  rcases foldl_maxLen_attained seqs 0 with h | h
  · obtain ⟨x, xs, rfl⟩ := List.exists_cons_of_ne_nil hne
    refine ⟨x, List.mem_cons_self x xs, ?_⟩
    have hx := padSeqMax_mem_le (x :: xs) x (List.mem_cons_self x xs)
    unfold padSeqMax at *
    omega
  · exact h

/-- C4: for every non-empty batch, `_collate_fn` succeeds and returns an
image batch and a caption batch that are both as long as the batch, and
every caption row has length equal to the maximum caption length present in
this batch (`padSeqMax` bounds every caption of the batch and is attained by
one of them — a per-batch maximum, not a global one). -/
theorem c4_collate_shapes {Image : Type} (batch : List (Image × List Int)) (hne : batch ≠ []) :
    ∃ imgs caps, collateFn batch = Except.ok (imgs, caps) ∧
      imgs.length = batch.length ∧ caps.length = batch.length ∧
      (∀ row ∈ caps, row.length = padSeqMax (batch.map Prod.snd)) ∧
      (∀ p ∈ batch, p.2.length ≤ padSeqMax (batch.map Prod.snd)) ∧
      (∃ p ∈ batch, p.2.length = padSeqMax (batch.map Prod.snd)) := by
  refine ⟨batch.map Prod.fst, padSequence (batch.map Prod.snd) 0, ?_, ?_, ?_, ?_, ?_, ?_⟩
  · simp [collateFn, List.isEmpty_iff, hne]
  · simp
  · simp [padSequence]
  · intro row hrow
    obtain ⟨s, hs, rfl⟩ := List.mem_map.mp hrow
    have hle := padSeqMax_mem_le _ s hs
    simp [List.length_append, List.length_replicate]
    omega
  · intro p hp
    exact padSeqMax_mem_le _ _ (List.mem_map_of_mem Prod.snd hp)
  · have hne2 : batch.map Prod.snd ≠ [] := by
      simpa [List.map_eq_nil_iff] using hne
    obtain ⟨s, hs, h⟩ := padSeqMax_attained _ hne2
    obtain ⟨p, hp, rfl⟩ := List.mem_map.mp hs
    exact ⟨p, hp, h.symm⟩

def c4batch : List (Nat × List Int) := [(10, [1, 2]), (20, [3])]

theorem c4_witness :
    c4batch ≠ [] ∧
    (∃ imgs caps, collateFn c4batch = Except.ok (imgs, caps) ∧
      imgs.length = c4batch.length ∧ caps.length = c4batch.length ∧
      (∀ row ∈ caps, row.length = padSeqMax (c4batch.map Prod.snd)) ∧
      (∀ p ∈ c4batch, p.2.length ≤ padSeqMax (c4batch.map Prod.snd)) ∧
      (∃ p ∈ c4batch, p.2.length = padSeqMax (c4batch.map Prod.snd))) :=
  ⟨by decide, c4_collate_shapes c4batch (by decide)⟩

/-- C5: for every non-empty batch, the padding value `_collate_fn` appends
is always 0 and each padded caption row starts with the sample's original
token sequence unchanged — row i is exactly the source sequence followed by
zeros, so its prefix of the source length is the source itself. -/
theorem c5_padding_rows {Image : Type} (batch : List (Image × List Int)) (hne : batch ≠ []) :
    ∃ imgs caps, collateFn batch = Except.ok (imgs, caps) ∧
      ∀ i (h1 : i < batch.length) (h2 : i < caps.length),
        caps.get ⟨i, h2⟩ = (batch.get ⟨i, h1⟩).2 ++
            List.replicate (padSeqMax (batch.map Prod.snd) - (batch.get ⟨i, h1⟩).2.length) 0 ∧
        (caps.get ⟨i, h2⟩).take (batch.get ⟨i, h1⟩).2.length = (batch.get ⟨i, h1⟩).2 := by
  refine ⟨batch.map Prod.fst, padSequence (batch.map Prod.snd) 0, ?_, ?_⟩
  · simp [collateFn, List.isEmpty_iff, hne]
  · intro i h1 h2
    have hrow : (padSequence (batch.map Prod.snd) 0).get ⟨i, h2⟩ =
        (batch.get ⟨i, h1⟩).2 ++
          List.replicate (padSeqMax (batch.map Prod.snd) - (batch.get ⟨i, h1⟩).2.length) 0 := by
      simp [padSequence, List.get_eq_getElem, List.getElem_map]
    refine ⟨hrow, ?_⟩
    rw [hrow]
    exact List.take_left _ _

def c5batch : List (Nat × List Int) := [(7, [4]), (8, [5, 6, 7])]

theorem c5_witness :
    c5batch ≠ [] ∧
    (∃ imgs caps, collateFn c5batch = Except.ok (imgs, caps) ∧
      ∀ i (h1 : i < c5batch.length) (h2 : i < caps.length),
        caps.get ⟨i, h2⟩ = (c5batch.get ⟨i, h1⟩).2 ++
            List.replicate (padSeqMax (c5batch.map Prod.snd) - (c5batch.get ⟨i, h1⟩).2.length) 0 ∧
        (caps.get ⟨i, h2⟩).take (c5batch.get ⟨i, h1⟩).2.length = (c5batch.get ⟨i, h1⟩).2) :=
  ⟨by decide, c5_padding_rows c5batch (by decide)⟩

theorem dataGetitemOut_no_match {Image : Type} (imread : String → Option Image)
    (pick : Nat → Nat) (st : DataState Image) (idx : Nat) (path : String) (img : Image)
    (n : Int)
    (h1 : pyIndex st.image_paths (Int.ofNat idx) = Except.ok path)
    (h2 : imread path = some img)
    (h3 : pyInt (firstDot (basename path)) = Except.ok n)
    (h4 : matchingCaptions st.captions (toString n) = []) :
    dataGetitemOut imread pick st idx =
      (["No captions found for image ID " ++ toString n ++ ". Returning an empty caption."],
       Except.error (PyError.valueError "empty range for randrange()")) := by
  unfold dataGetitemOut
  simp only [h1, h2, h3]
  simp [h4, resolveCaptions, randint]

theorem dataGetitemOut_single_caption {Image : Type} (imread : String → Option Image)
    (pick : Nat → Nat) (st : DataState Image) (idx : Nat) (path : String) (img : Image)
    (n : Int) (cap : String)
    (h1 : pyIndex st.image_paths (Int.ofNat idx) = Except.ok path)
    (h2 : imread path = some img)
    (h3 : pyInt (firstDot (basename path)) = Except.ok n)
    (h4 : matchingCaptions st.captions (toString n) = [[cap]]) :
    dataGetitemOut imread pick st idx =
      ([], Except.ok ((match st.transform with | some t => t img | none => img),
        st.tokenizer (pyStrip cap))) := by
  unfold dataGetitemOut
  simp only [h1, h2, h3]
  simp [h4, resolveCaptions, randint, pyIndex, Nat.mod_one]

/-- C1 (amended): for every access whose image resolves, decodes and parses
but whose integer id matches no caption record (the resolved caption list is
empty), `Data.__getitem__` prints the no-captions warning and then fails
with a `ValueError` raised by `random.randint(0, -1)` when selecting a
caption — before any tokenization or image transform is applied (the result
does not involve the tokenizer or the transform). -/
theorem c1_no_captions_fails_at_selection {Image : Type} (imread : String → Option Image)
    (pick : Nat → Nat) (st : DataState Image) (idx : Nat) (path : String) (img : Image)
    (n : Int)
    (h1 : pyIndex st.image_paths (Int.ofNat idx) = Except.ok path)
    (h2 : imread path = some img)
    (h3 : pyInt (firstDot (basename path)) = Except.ok n)
    (h4 : matchingCaptions st.captions (toString n) = []) :
    dataGetitem imread pick st idx =
      (st, ["No captions found for image ID " ++ toString n ++ ". Returning an empty caption."],
       Except.error (PyError.valueError "empty range for randrange()")) := by
  unfold dataGetitem
  rw [dataGetitemOut_no_match imread pick st idx path img n h1 h2 h3 h4]

def c1st : DataState Nat :=
  { image_dir := "coco2017", image_paths := ["coco2017/train2017/000007.jpg"],
    caption_file_train := "coco2017/captions/train_captions.json",
    caption_file_val := "coco2017/captions/val_captions.json",
    transform := none, tokenizer := fun _ => [], captions := [⟨3, ["a cat"]⟩] }

def c1imread : String → Option Nat := fun _ => some 0

def c1pick : Nat → Nat := fun _ => 0

/-- C1 counterexample: at a concrete store whose only record has id 3 while
the accessed image has id 7, the access fails with a `ValueError` (the empty
range of `random.randint`), not with an `IndexError`-class error as the
claim states — the empty list is never indexed. -/
theorem c1_counterexample :
    (dataGetitem c1imread c1pick c1st 0).2.2 =
      Except.error (PyError.valueError "empty range for randrange()") ∧
    (dataGetitem c1imread c1pick c1st 0).2.2 ≠ Except.error PyError.indexError ∧
    (dataGetitem c1imread c1pick c1st 0).2.1 =
      ["No captions found for image ID 7. Returning an empty caption."] :=
  ⟨by decide, by decide, by decide⟩

def c1wst : DataState Nat :=
  { image_dir := "d", image_paths := ["d/val2017/000042.jpg"],
    caption_file_train := "d/captions/train_captions.json",
    caption_file_val := "d/captions/val_captions.json",
    transform := none, tokenizer := fun _ => [], captions := [] }

def c1wimread : String → Option Nat := fun _ => some 5

def c1wpick : Nat → Nat := fun _ => 2

theorem c1_witness :
    pyIndex c1wst.image_paths (Int.ofNat 0) = Except.ok "d/val2017/000042.jpg" ∧
    c1wimread "d/val2017/000042.jpg" = some 5 ∧
    pyInt (firstDot (basename "d/val2017/000042.jpg")) = Except.ok 42 ∧
    matchingCaptions c1wst.captions (toString (42 : Int)) = [] ∧
    dataGetitem c1wimread c1wpick c1wst 0 =
      (c1wst, ["No captions found for image ID 42. Returning an empty caption."],
       Except.error (PyError.valueError "empty range for randrange()")) :=
  ⟨by decide, by decide, by decide, by decide,
   c1_no_captions_fails_at_selection c1wimread c1wpick c1wst 0 "d/val2017/000042.jpg" 5 42
     (by decide) (by decide) (by decide) (by decide)⟩

/-- C2: when the split's caption JSON file does not exist, `Data.__init__`
still succeeds: it returns a state whose caption set is empty, printing only
the not-found message (not a fatal error); and every subsequent per-sample
lookup on that store (any index whose path resolves, decodes and parses)
misses, printing the empty-caption warning for that sample. -/
theorem c2_missing_caption_file {Image : Type} (image_dir image_split caption_split : String)
    (glob : String → List String) (readJson : String → Option (List CaptionRecord))
    (tok : String → List Int) (transform : Option (Image → Image))
    (imread : String → Option Image) (pick : Nat → Nat)
    (hmiss : readJson (if image_split == "train2017"
        then image_dir ++ "/" ++ caption_split ++ "/train_captions.json"
        else image_dir ++ "/" ++ caption_split ++ "/val_captions.json") = none) :
    (dataInit image_dir image_split caption_split glob readJson tok transform
        : DataState Image × List String).1.captions = [] ∧
    (dataInit image_dir image_split caption_split glob readJson tok transform
        : DataState Image × List String).2 =
      ["Caption file for " ++ image_split ++ " not found."] ∧
    (∀ (idx : Nat) (path : String) (img : Image) (n : Int),
      pyIndex (dataInit image_dir image_split caption_split glob readJson tok transform
          : DataState Image × List String).1.image_paths (Int.ofNat idx) = Except.ok path →
      imread path = some img →
      pyInt (firstDot (basename path)) = Except.ok n →
      (dataGetitem imread pick
          (dataInit image_dir image_split caption_split glob readJson tok transform).1
          idx).2.1 =
        ["No captions found for image ID " ++ toString n ++ ". Returning an empty caption."]) := by
  refine ⟨?_, ?_, ?_⟩
  · simp only [dataInit, hmiss]
  · simp only [dataInit, hmiss]
  · intro idx path img n hp hi hn
    have h4 : matchingCaptions ((dataInit image_dir image_split caption_split glob readJson
        tok transform : DataState Image × List String).1).captions (toString n) = [] := by
      simp only [dataInit, hmiss]
      rfl
    have hout := dataGetitemOut_no_match imread pick _ idx path img n hp hi hn h4
    show (dataGetitemOut imread pick _ idx).1 = _
    rw [hout]

def c2glob : String → List String := fun _ => ["root/val2017/000001.jpg"]

def c2readJson : String → Option (List CaptionRecord) := fun _ => none

def c2tok : String → List Int := fun _ => [1]

def c2imread : String → Option Nat := fun _ => some 3

def c2pick : Nat → Nat := fun _ => 0

theorem c2_witness :
    c2readJson (if "val2017" == "train2017"
        then "root" ++ "/" ++ "captions" ++ "/train_captions.json"
        else "root" ++ "/" ++ "captions" ++ "/val_captions.json") = none ∧
    ((dataInit "root" "val2017" "captions" c2glob c2readJson c2tok
        (none : Option (Nat → Nat))).1.captions = [] ∧
     (dataInit "root" "val2017" "captions" c2glob c2readJson c2tok
        (none : Option (Nat → Nat))).2 = ["Caption file for " ++ "val2017" ++ " not found."] ∧
     (∀ (idx : Nat) (path : String) (img : Nat) (n : Int),
       pyIndex (dataInit "root" "val2017" "captions" c2glob c2readJson c2tok
           (none : Option (Nat → Nat))).1.image_paths (Int.ofNat idx) = Except.ok path →
       c2imread path = some img →
       pyInt (firstDot (basename path)) = Except.ok n →
       (dataGetitem c2imread c2pick
           (dataInit "root" "val2017" "captions" c2glob c2readJson c2tok
             (none : Option (Nat → Nat))).1 idx).2.1 =
         ["No captions found for image ID " ++ toString n ++ ". Returning an empty caption."])) :=
  ⟨rfl, c2_missing_caption_file "root" "val2017" "captions" c2glob c2readJson c2tok
    (none : Option (Nat → Nat)) c2imread c2pick rfl⟩

def c6glob : String → List String := fun _ => ["coco2017/train2017/000123.jpg"]

def c6readJson : String → Option (List CaptionRecord) := fun f =>
  if f == "coco2017/captions/train_captions.json" then some [⟨123, ["a dog"]⟩] else none

def c6state {Image : Type} (tok : String → List Int) (T : Image → Image) : DataState Image :=
  { image_dir := "coco2017", image_paths := ["coco2017/train2017/000123.jpg"],
    caption_file_train := "coco2017/captions/train_captions.json",
    caption_file_val := "coco2017/captions/val_captions.json",
    transform := some T, tokenizer := tok,
    captions := [⟨123, ["a dog"]⟩] }

/-- C6: with the dataset root holding the single image
`train2017/000123.jpg` and a caption file whose single record is
`{"image_id": 123, "captions": ["a dog"]}`, `get` at index 0 matches the
record (the stem `000123` and the record id both normalize to the string
`"123"` through `str(int(...))`), tokenizes `"a dog"`, and returns the token
sequence alongside the transformed image — for every entropy source `pick`,
so the single-caption selection is deterministic. -/
theorem c6_single_record_example {Image : Type} (imread : String → Option Image)
    (tok : String → List Int) (pick : Nat → Nat) (T : Image → Image) (img : Image)
    (h : imread "coco2017/train2017/000123.jpg" = some img) :
    dataGetitem imread pick
      ((dataInit "coco2017" "train2017" "captions" c6glob c6readJson tok (some T)).1) 0 =
      ((dataInit "coco2017" "train2017" "captions" c6glob c6readJson tok (some T)).1,
       [], Except.ok (T img, tok "a dog")) := by
  have hst : (dataInit "coco2017" "train2017" "captions" c6glob c6readJson tok
      (some T) : DataState Image × List String).1 = c6state tok T := rfl
  rw [hst]
  unfold dataGetitem
  rw [dataGetitemOut_single_caption imread pick (c6state tok T) 0
    "coco2017/train2017/000123.jpg" img 123 "a dog" rfl h rfl rfl]
  rfl

def c6imread : String → Option String := fun s => some s

def c6tok : String → List Int := fun _ => [101, 1037, 3899, 102]

def c6T : String → String := fun _ => "transformed"

theorem c6_witness :
    c6imread "coco2017/train2017/000123.jpg" = some "coco2017/train2017/000123.jpg" ∧
    dataGetitem c6imread (fun _ => 0)
      ((dataInit "coco2017" "train2017" "captions" c6glob c6readJson c6tok (some c6T)).1) 0 =
      ((dataInit "coco2017" "train2017" "captions" c6glob c6readJson c6tok (some c6T)).1,
       [], Except.ok ("transformed", [101, 1037, 3899, 102])) :=
  ⟨rfl, c6_single_record_example c6imread c6tok (fun _ => 0) c6T
    "coco2017/train2017/000123.jpg" rfl⟩
